import Mathlib

/-!
Shallow embedding of the Prospect Discovery and Campaign Tracking core of
the looklike-nearby repository, together with proofs of its specified
properties. The repository under verification ships the frontends and an
MCP route in TypeScript; the backend core (ProximitySearchEngine,
CandidateFilter, ProspectRepository, CampaignTracker) is not part of the
shipped sources, so those components are modelled from the specification
text, as marked on each definition. Components that do appear in the
sources (the zod radius schema in route.ts, the query building in
api.ts, the star rating renderer in main.js) are embedded from that code.
-/

namespace LookLike

/-- Outreach status values of a CampaignProspect, from the zod enum in
route.ts: NEW, CONTACTED, QUALIFIED, NOT_INTERESTED, CONVERTED. -/
inductive ProspectStatus where
  | NEW
  | CONTACTED
  | QUALIFIED
  | NOT_INTERESTED
  | CONVERTED
deriving DecidableEq, Repr

/-- A raw candidate returned by the places catalog: external catalog id,
name, business type, optional rating, optional price tier, optional
open-now signal. -/
structure RawCandidate where
  externalId : String
  name : String
  businessType : String
  rating : Option ℚ
  priceLevel : Option ℕ
  openNow : Option Bool
deriving DecidableEq, Repr

/-- A persisted Prospect row: same attributes as a candidate, keyed by
the external catalog id. -/
structure Prospect where
  externalId : String
  name : String
  businessType : String
  rating : Option ℚ
  priceLevel : Option ℕ
  openNow : Option Bool
deriving DecidableEq, Repr

/-! ## Radius validation (C1)

The range check on radius_meters is the zod schema in route.ts:
z.number().min(1000).max(50000), both bounds inclusive. The error name
InvalidRadiusError lives in the backend, which is not among the shipped
sources; the validation wrapper is therefore modelled from the spec. -/

/-- The zod constraint on radius_meters from route.ts:
z.number().min(1000).max(50000). Accepts exactly the numbers in the
closed interval. -/
def radiusSchemaAccepts (r : ℚ) : Bool :=
  decide (1000 ≤ r) && decide (r ≤ 50000)

/-- Errors surfaced by the search path. -/
inductive SearchError where
  | invalidRadiusError
  | searchUnavailableError
deriving DecidableEq, Repr

/-- Modelled from the spec: ProximitySearchEngine radius validation.
Radius constrained to the configured range 1000 to 50000 meters; values
outside the range fail with InvalidRadiusError rather than being
silently clamped. The range itself is the zod schema of route.ts. -/
def validateRadius (r : ℚ) : Except SearchError Unit :=
  if radiusSchemaAccepts r then .ok () else .error .invalidRadiusError

/-! ## CandidateFilter (C4)

Modelled from the spec: a pure, order-preserving predicate-chain filter
with options business_type (category match), min_rating (inclusive lower
bound, no-rating candidates excluded when set), max_price_level
(inclusive upper bound, unknown price excluded when set), open_now
(live signal must match). Filters compose conjunctively. -/

/-- Caller-supplied filter options; a field of none means the filter is
unset. -/
structure FilterOptions where
  business_type : Option String
  min_rating : Option ℚ
  max_price_level : Option ℕ
  open_now : Option Bool
deriving DecidableEq, Repr

/-- Modelled from the spec: category match of the business type when the
filter is set. -/
def typeOk (bt : Option String) (c : RawCandidate) : Bool :=
  match bt with
  | none => true
  | some t => c.businessType == t

/-- Modelled from the spec: min_rating is an inclusive lower bound;
candidates with no rating are excluded when this filter is set. -/
def ratingOk (minR : Option ℚ) (c : RawCandidate) : Bool :=
  match minR with
  | none => true
  | some r =>
    match c.rating with
    | none => false
    | some x => decide (r ≤ x)

/-- Modelled from the spec: max_price_level is an inclusive upper bound
on the price tier; unset price is excluded when this filter is set. -/
def priceOk (maxP : Option ℕ) (c : RawCandidate) : Bool :=
  match maxP with
  | none => true
  | some m =>
    match c.priceLevel with
    | none => false
    | some p => decide (p ≤ m)

/-- Modelled from the spec: open_now requires the live open or closed
signal of the candidate to match. -/
def openOk (ow : Option Bool) (c : RawCandidate) : Bool :=
  match ow with
  | none => true
  | some b =>
    match c.openNow with
    | none => false
    | some o => o == b

/-- Modelled from the spec: the filters compose conjunctively. -/
def matchesFilters (f : FilterOptions) (c : RawCandidate) : Bool :=
  typeOk f.business_type c && ratingOk f.min_rating c
    && priceOk f.max_price_level c && openOk f.open_now c

/-- Modelled from the spec: CandidateFilter.apply, a pure and
order-preserving filter of the candidate sequence. -/
def applyFilters (f : FilterOptions) (cs : List RawCandidate) : List RawCandidate :=
  cs.filter (matchesFilters f)

/-- A FilterOptions with only min_rating set. -/
def minRatingFilter (r : ℚ) : FilterOptions :=
  ⟨none, some r, none, none⟩

/-! ## ProspectRepository (C3, C7, C8)

Modelled from the spec: upsert_many looks up an existing Prospect by
external catalog id for each candidate; if absent it creates one, if
present it updates only the mutable fields (rating, open-now, price
tier) and leaves identity fields untouched, returning the resulting
Prospect records in input order. -/

/-- The store of Prospect rows. -/
structure RepoState where
  rows : List Prospect
deriving DecidableEq, Repr

/-- Modelled from the spec: a subsequent sighting updates only the
mutable fields (rating, open-now, price tier) of the stored row. -/
def updateProspect (old : Prospect) (c : RawCandidate) : Prospect :=
  { old with rating := c.rating, openNow := c.openNow, priceLevel := c.priceLevel }

/-- Modelled from the spec: the Prospect row created when a candidate is
first seen. -/
def newProspect (c : RawCandidate) : Prospect :=
  ⟨c.externalId, c.name, c.businessType, c.rating, c.priceLevel, c.openNow⟩

/-- Modelled from the spec: upsert of a single candidate by external
catalog id; update in place when the id is already stored, create
otherwise. -/
def upsertOne (st : RepoState) (c : RawCandidate) : RepoState × Prospect :=
  match st.rows.find? (fun p => p.externalId == c.externalId) with
  | some old =>
      (⟨st.rows.map fun p =>
          if p.externalId == c.externalId then updateProspect p c else p⟩,
        updateProspect old c)
  | none =>
      (⟨st.rows ++ [newProspect c]⟩, newProspect c)

/-- Modelled from the spec: upsert_many processes the candidates in
order and returns the resulting Prospect records in input order. -/
def upsertMany (st : RepoState) : List RawCandidate → RepoState × List Prospect
  | [] => (st, [])
  | c :: cs =>
      let r1 := upsertOne st c
      let r2 := upsertMany r1.1 cs
      (r2.1, r1.2 :: r2.2)

/-- Errors surfaced by the repository. -/
inductive RepoError where
  | persistenceError
deriving DecidableEq, Repr

/-- Modelled from the spec: upsert_many where persisting a candidate may
fail; the failing argument says which external ids the persistence
store rejects. A failure aborts the whole batch with PersistenceError
and no updated state is handed back to the caller. -/
def upsertManyF (failing : String → Bool) (st : RepoState) :
    List RawCandidate → Except RepoError (RepoState × List Prospect)
  | [] => .ok (st, [])
  | c :: cs =>
      if failing c.externalId then .error .persistenceError
      else
        let r1 := upsertOne st c
        match upsertManyF failing r1.1 cs with
        | .error e => .error e
        | .ok (st2, ps) => .ok (st2, r1.2 :: ps)

/-- The store a caller observes after running a batch: the new state on
success, the untouched original state on failure. -/
def runUpsertMany (failing : String → Bool) (st : RepoState)
    (cs : List RawCandidate) : RepoState :=
  match upsertManyF failing st cs with
  | .ok (st2, _) => st2
  | .error _ => st

/-! ## CampaignTracker (C2, C5, C6)

Modelled from the spec: attach creates the association with initial
status NEW and fails with DuplicateAssociationError when the pair
already exists; transition moves an existing association to a new
status, failing with InvalidStatusError on NEW or on an unknown value. -/

/-- The association entity: campaign id, prospect id, outreach status,
free-text notes. -/
structure CampaignProspect where
  campaignId : ℕ
  prospectId : ℕ
  status : ProspectStatus
  notes : String
deriving DecidableEq, Repr

/-- The stored CampaignProspect links. -/
structure TrackerState where
  links : List CampaignProspect
deriving DecidableEq, Repr

/-- Errors surfaced by the tracker. -/
inductive TrackerError where
  | duplicateAssociationError
  | invalidStatusError
  | notFoundError
deriving DecidableEq, Repr

/-- Whether a (campaign, prospect) pair is already stored. -/
def pairExists (st : TrackerState) (cid pid : ℕ) : Bool :=
  st.links.any fun l => l.campaignId == cid && l.prospectId == pid

/-- Modelled from the spec: attach(campaign_id, prospect_id, status,
notes) fails with DuplicateAssociationError if the pair already exists;
NEW is the only initial state, set on attach, so the created link
carries NEW whatever the status argument says. -/
def attach (st : TrackerState) (cid pid : ℕ) (status : ProspectStatus)
    (notes : String) : Except TrackerError (TrackerState × CampaignProspect) :=
  if pairExists st cid pid then .error .duplicateAssociationError
  else
    let _ := status
    let link : CampaignProspect := ⟨cid, pid, .NEW, notes⟩
    .ok (⟨st.links ++ [link]⟩, link)

/-- Parse a raw status value into the finite enum; unknown values give
none. The five defined values are those of the zod enum in route.ts. -/
def parseStatus (s : String) : Option ProspectStatus :=
  if s == "NEW" then some .NEW
  else if s == "CONTACTED" then some .CONTACTED
  else if s == "QUALIFIED" then some .QUALIFIED
  else if s == "NOT_INTERESTED" then some .NOT_INTERESTED
  else if s == "CONVERTED" then some .CONVERTED
  else none

/-- Modelled from the spec: transition(campaign_id, prospect_id,
new_status). Invalid target values fail with InvalidStatusError; all
transitions are permitted except into NEW from any state; an unknown
pair fails with NotFoundError. -/
def transition (st : TrackerState) (cid pid : ℕ) (newStatus : String) :
    Except TrackerError TrackerState :=
  match parseStatus newStatus with
  | none => .error .invalidStatusError
  | some .NEW => .error .invalidStatusError
  | some s =>
      if pairExists st cid pid then
        .ok ⟨st.links.map fun l =>
          if l.campaignId == cid && l.prospectId == pid then
            { l with status := s }
          else l⟩
      else .error .notFoundError

/-! ## ApiClient.searchProspects query building (C9)

Embedded from api.ts lines 108 to 136: each parameter is appended to
the query string only when its value is truthy in the JavaScript sense,
so the number 0, the empty string and false are all omitted. -/

/-- JavaScript truthiness of an optional number: undefined and 0 are
falsy. -/
def numTruthy : Option ℚ → Bool
  | none => false
  | some x => !(x == 0)

/-- JavaScript truthiness of an optional string: undefined and the
empty string are falsy. -/
def strTruthy : Option String → Bool
  | none => false
  | some s => !(s == "")

/-- JavaScript truthiness of an optional boolean: undefined and false
are falsy. -/
def boolTruthy : Option Bool → Bool
  | none => false
  | some b => b

/-- The filters object of SearchParams, as used by api.ts. -/
structure SearchFilters where
  business_type : Option String
  min_rating : Option ℚ
  max_price_level : Option ℚ
  open_now : Option Bool
deriving DecidableEq, Repr

/-- SearchParams as used by ApiClient.searchProspects. -/
structure SearchParams where
  reference_client_id : Option ℚ
  radius_meters : Option ℚ
  custom_address : Option String
  filters : Option SearchFilters
deriving DecidableEq, Repr

/-- Rendering of an optional number for the query string. -/
def optNumStr : Option ℚ → String
  | none => ""
  | some x => toString x

/-- Rendering of an optional boolean for the query string. -/
def optBoolStr : Option Bool → String
  | none => ""
  | some b => if b then "true" else "false"

/-- Embedded from ApiClient.searchProspects in api.ts: the ordered list
of query string entries, each appended only when the corresponding
value is truthy. -/
def searchQueryParams (p : SearchParams) : List (String × String) :=
  (if numTruthy p.reference_client_id then
    [("reference_client_id", optNumStr p.reference_client_id)] else [])
  ++ (if numTruthy p.radius_meters then
    [("radius_meters", optNumStr p.radius_meters)] else [])
  ++ (if strTruthy p.custom_address then
    [("custom_address", p.custom_address.getD "")] else [])
  ++ (match p.filters with
      | none => []
      | some f =>
        (if strTruthy f.business_type then
          [("business_type", f.business_type.getD "")] else [])
        ++ (if numTruthy f.min_rating then
          [("min_rating", optNumStr f.min_rating)] else [])
        ++ (if numTruthy f.max_price_level then
          [("max_price_level", optNumStr f.max_price_level)] else [])
        ++ (if boolTruthy f.open_now then
          [("open_now", optBoolStr f.open_now)] else []))

/-! ## generateStarRating (C10)

Embedded from main.js lines 261 to 280. The markup is abstracted to the
counts of full, half and empty star icons; the No rating branch is its
own constructor. -/

/-- Abstraction of the returned markup: either the No rating marker or
the counts of full, half and empty star icons in that order. -/
inductive StarMarkup where
  | noRating
  | stars (full half empty : ℕ)
deriving DecidableEq, Repr

/-- The JavaScript remainder by one: r - trunc(r), truncation toward
zero. Agrees with Int.fract on nonnegative inputs. -/
def jsRem (q : ℚ) : ℚ :=
  if 0 ≤ q then q - (⌊q⌋ : ℚ) else q - (⌈q⌉ : ℚ)

/-- Embedded from generateStarRating in main.js: a falsy rating gives
the No rating marker; otherwise fullStars = floor(rating), a half star
when rating % 1 is at least 0.5, and emptyStars = 5 - fullStars -
(half ? 1 : 0), each loop running max(0, count) times. -/
def generateStarRating (rating : Option ℚ) : StarMarkup :=
  match rating with
  | none => .noRating
  | some r =>
      if r == 0 then .noRating
      else
        let fullStars : ℤ := ⌊r⌋
        let hasHalfStar : Bool := decide ((1 : ℚ)/2 ≤ jsRem r)
        let emptyStars : ℤ := 5 - fullStars - (if hasHalfStar then 1 else 0)
        .stars fullStars.toNat (if hasHalfStar then 1 else 0) emptyStars.toNat

/-! ## Theorems -/

/-- C1: for every radius in [1000, 50000] the validation never yields
InvalidRadiusError; for every radius outside that range it always fails
with InvalidRadiusError, never silently clamping. The range is exactly
the zod schema bound of route.ts. -/
theorem validateRadius_range_spec (r : ℚ) :
    (validateRadius r = .error .invalidRadiusError ↔ ¬(1000 ≤ r ∧ r ≤ 50000))
    ∧ (validateRadius r = .ok () ↔ (1000 ≤ r ∧ r ≤ 50000))
    ∧ (radiusSchemaAccepts r = true ↔ (1000 ≤ r ∧ r ≤ 50000)) := by
  have hacc : radiusSchemaAccepts r = true ↔ (1000 ≤ r ∧ r ≤ 50000) := by
    simp [radiusSchemaAccepts]
  by_cases h : 1000 ≤ r ∧ r ≤ 50000
  · refine ⟨?_, ?_, hacc⟩ <;>
      simp [validateRadius, hacc.mpr h, h]
  · have hfalse : radiusSchemaAccepts r = false := by
      cases hb : radiusSchemaAccepts r
      · rfl
      · exact absurd (hacc.mp hb) h
    refine ⟨?_, ?_, hacc⟩ <;>
      simp [validateRadius, hfalse, h]

/-- The five raw candidates of the example scenario in the spec, with
ratings 4.5, 3.0, none, 4.8 and 4.0, all of type restaurant. -/
def exampleCandidates : List RawCandidate :=
  [⟨"p1", "A", "restaurant", some (9/2), none, none⟩,
   ⟨"p2", "B", "restaurant", some 3, none, none⟩,
   ⟨"p3", "C", "restaurant", none, none, none⟩,
   ⟨"p4", "D", "restaurant", some (24/5), none, none⟩,
   ⟨"p5", "E", "restaurant", some 4, none, none⟩]

/-- C4: with min_rating set to r, CandidateFilter keeps exactly the
candidates with a rating at least r (inclusive), excludes the ones with
no rating or a lower rating, and preserves the relative input order of
the survivors; on the example candidates with ratings
[4.5, 3.0, none, 4.8, 4.0] and min_rating 4 exactly the 4.5, 4.8 and
4.0 candidates survive, in the original relative order. -/
theorem candidateFilter_min_rating_spec (r : ℚ) (cs : List RawCandidate) :
    (applyFilters (minRatingFilter r) cs).Sublist cs
    ∧ (∀ c, c ∈ applyFilters (minRatingFilter r) cs ↔
        c ∈ cs ∧ ∃ x, c.rating = some x ∧ r ≤ x)
    ∧ applyFilters ⟨some "restaurant", some 4, none, none⟩ exampleCandidates
        = [⟨"p1", "A", "restaurant", some (9/2), none, none⟩,
           ⟨"p4", "D", "restaurant", some (24/5), none, none⟩,
           ⟨"p5", "E", "restaurant", some 4, none, none⟩] := by
  refine ⟨List.filter_sublist cs, ?_, by
    norm_num [applyFilters, exampleCandidates, matchesFilters, typeOk,
      ratingOk, priceOk, openOk, List.filter]⟩
  intro c
  rw [applyFilters, List.mem_filter]
  refine and_congr_right fun _ => ?_
  simp only [matchesFilters, minRatingFilter, typeOk, ratingOk, priceOk, openOk]
  cases hr : c.rating with
  | none => simp
  | some x => simp

/-- C4 witness: the property instantiated at min_rating 4 on the example
candidates. -/
theorem candidateFilter_min_rating_spec_witness :
    (applyFilters (minRatingFilter 4) exampleCandidates).Sublist exampleCandidates
    ∧ (∀ c, c ∈ applyFilters (minRatingFilter 4) exampleCandidates ↔
        c ∈ exampleCandidates ∧ ∃ x, c.rating = some x ∧ 4 ≤ x)
    ∧ applyFilters ⟨some "restaurant", some 4, none, none⟩ exampleCandidates
        = [⟨"p1", "A", "restaurant", some (9/2), none, none⟩,
           ⟨"p4", "D", "restaurant", some (24/5), none, none⟩,
           ⟨"p5", "E", "restaurant", some 4, none, none⟩] :=
  candidateFilter_min_rating_spec 4 exampleCandidates

/-- Updating the mutable fields never changes the external catalog id. -/
theorem updateProspect_externalId (old : Prospect) (c : RawCandidate) :
    (updateProspect old c).externalId = old.externalId := rfl

/-- The effect of one upsert on the stored id column: an update in place
keeps the column unchanged and happens exactly when the id is already
stored; a create appends the id and happens exactly when it is new. -/
theorem upsertOne_ids (st : RepoState) (c : RawCandidate) :
    ((upsertOne st c).1.rows.map Prospect.externalId = st.rows.map Prospect.externalId
      ∧ c.externalId ∈ st.rows.map Prospect.externalId)
    ∨ ((upsertOne st c).1.rows.map Prospect.externalId
        = st.rows.map Prospect.externalId ++ [c.externalId]
      ∧ c.externalId ∉ st.rows.map Prospect.externalId) := by
  cases hf : st.rows.find? (fun p => p.externalId == c.externalId) with
  | some old =>
      left
      constructor
      · simp only [upsertOne, hf, List.map_map]
        apply List.map_congr_left
        intro p _
        simp only [Function.comp_apply]
        split
        · rfl
        · rfl
      · have hmem := List.mem_of_find?_eq_some hf
        have hpred : old.externalId = c.externalId := by
          have := List.find?_some hf
          simpa using this
        exact hpred ▸ List.mem_map_of_mem Prospect.externalId hmem
  | none =>
      right
      constructor
      · simp [upsertOne, hf, newProspect]
      · have hall := List.find?_eq_none.mp hf
        simp only [List.mem_map, not_exists]
        rintro p ⟨hp, hpe⟩
        exact absurd (by simp [hpe] : (p.externalId == c.externalId) = true)
          (by simpa using hall p hp)

/-- One upsert preserves the uniqueness of the stored external ids. -/
theorem upsertOne_nodup (st : RepoState) (c : RawCandidate)
    (h : (st.rows.map Prospect.externalId).Nodup) :
    ((upsertOne st c).1.rows.map Prospect.externalId).Nodup := by
  rcases upsertOne_ids st c with ⟨heq, _⟩ | ⟨heq, hnot⟩
  · rwa [heq]
  · rw [heq]
    exact h.append (List.nodup_singleton _) ((List.disjoint_singleton).mpr hnot)

/-- A whole batch preserves the uniqueness of the stored external ids. -/
theorem upsertMany_nodup (cs : List RawCandidate) (st : RepoState)
    (h : (st.rows.map Prospect.externalId).Nodup) :
    ((upsertMany st cs).1.rows.map Prospect.externalId).Nodup := by
  induction cs generalizing st with
  | nil => exact h
  | cons c cs ih =>
      simp only [upsertMany]
      exact ih _ (upsertOne_nodup st c h)

/-- The candidate of the spec example scenario: external id place_123
with a given rating. -/
def placeCand (r : ℚ) : RawCandidate :=
  ⟨"place_123", "Cafe", "cafe", some r, some 2, some true⟩

/-- C3: the store keeps at most one Prospect row per external catalog
id under any upsert batch; upserting an already stored id updates in
place, leaving the id column unchanged, and never creates a second row;
in particular two sequential upserts of place_123 with ratings 4.2 then
4.6 leave exactly one row for place_123, carrying rating 4.6. -/
theorem prospectRepository_upsert_unique (st : RepoState) (cs : List RawCandidate)
    (h : (st.rows.map Prospect.externalId).Nodup) :
    ((upsertMany st cs).1.rows.map Prospect.externalId).Nodup
    ∧ (∀ c : RawCandidate, c.externalId ∈ st.rows.map Prospect.externalId →
        (upsertOne st c).1.rows.map Prospect.externalId
          = st.rows.map Prospect.externalId)
    ∧ (upsertMany (upsertMany ⟨[]⟩ [placeCand (21/5)]).1 [placeCand (23/5)]).1.rows
        = [newProspect (placeCand (23/5))] := by
  refine ⟨upsertMany_nodup cs st h, ?_, rfl⟩
  intro c hc
  rcases upsertOne_ids st c with ⟨heq, _⟩ | ⟨_, hnot⟩
  · exact heq
  · exact absurd hc hnot

/-- C3 witness: the uniqueness property instantiated on the empty store
and the place_123 batch. -/
theorem prospectRepository_upsert_unique_witness :
    ((upsertMany (RepoState.mk []) [placeCand (21/5)]).1.rows.map
        Prospect.externalId).Nodup
    ∧ (∀ c : RawCandidate,
        c.externalId ∈ (RepoState.mk []).rows.map Prospect.externalId →
        (upsertOne (RepoState.mk []) c).1.rows.map Prospect.externalId
          = (RepoState.mk []).rows.map Prospect.externalId)
    ∧ (upsertMany (upsertMany ⟨[]⟩ [placeCand (21/5)]).1 [placeCand (23/5)]).1.rows
        = [newProspect (placeCand (23/5))] :=
  prospectRepository_upsert_unique (RepoState.mk []) [placeCand (21/5)] (by simp)

/-- The Prospect record returned for a candidate carries that candidate
external catalog id, in both the update and the create branch. -/
theorem upsertOne_result_id (st : RepoState) (c : RawCandidate) :
    (upsertOne st c).2.externalId = c.externalId := by
  cases hf : st.rows.find? (fun p => p.externalId == c.externalId) with
  | some old =>
      have hpred : old.externalId = c.externalId := by
        have := List.find?_some hf
        simpa using this
      simp [upsertOne, hf, updateProspect, hpred]
  | none => simp [upsertOne, hf, newProspect]

/-- C7: upsert_many returns the resulting Prospect records in the same
relative order as the input candidates, the i-th result carrying the
external catalog id of the i-th candidate, never re-sorted by any
repository-internal order. -/
theorem prospectRepository_returns_input_order (st : RepoState)
    (cs : List RawCandidate) :
    (upsertMany st cs).2.map Prospect.externalId
      = cs.map RawCandidate.externalId := by
  induction cs generalizing st with
  | nil => rfl
  | cons c cs ih =>
      simp only [upsertMany, List.map_cons]
      rw [upsertOne_result_id, ih]

/-- A batch containing a candidate the persistence store rejects fails
as a whole with PersistenceError. -/
theorem upsertManyF_error_of_failing (failing : String → Bool) :
    ∀ (cs : List RawCandidate) (st : RepoState),
    (∃ c ∈ cs, failing c.externalId = true) →
    upsertManyF failing st cs = .error .persistenceError := by
  intro cs
  induction cs with
  | nil =>
      intro st h
      simp at h
  | cons c cs ih =>
      intro st h
      by_cases hc : failing c.externalId = true
      · simp [upsertManyF, hc]
      · rcases h with ⟨c', hc', hf⟩
        rcases List.mem_cons.mp hc' with rfl | hmem
        · exact absurd hf hc
        · simp only [upsertManyF, hc, if_false]
          rw [ih _ ⟨c', hmem, hf⟩]
          simp

/-- C8: if persisting any candidate of the batch fails, the whole batch
fails with PersistenceError and the caller observes the original store,
with none of the new rows or field updates of that batch visible. -/
theorem prospectRepository_batch_atomic (failing : String → Bool)
    (st : RepoState) (cs : List RawCandidate)
    (h : ∃ c ∈ cs, failing c.externalId = true) :
    upsertManyF failing st cs = .error .persistenceError
    ∧ runUpsertMany failing st cs = st := by
  have herr := upsertManyF_error_of_failing failing cs st h
  exact ⟨herr, by simp [runUpsertMany, herr]⟩

/-- A candidate whose persistence the store rejects in the C8 witness. -/
def badCand : RawCandidate :=
  ⟨"bad", "B", "bar", none, none, none⟩

/-- C8 witness: the atomicity property instantiated on the empty store
and a one-candidate batch the store rejects. -/
theorem prospectRepository_batch_atomic_witness :
    upsertManyF (fun s => s == "bad") (RepoState.mk []) [badCand]
        = .error .persistenceError
    ∧ runUpsertMany (fun s => s == "bad") (RepoState.mk []) [badCand]
        = RepoState.mk [] :=
  prospectRepository_batch_atomic (fun s => s == "bad") (RepoState.mk [])
    [badCand] ⟨badCand, by simp, rfl⟩

/-- C2: every successful attach creates the association with status
NEW; NEW is the only possible initial status, whatever status argument
the caller supplied. -/
theorem campaignTracker_attach_initial_NEW (st : TrackerState) (cid pid : ℕ)
    (status : ProspectStatus) (notes : String) (st2 : TrackerState)
    (link : CampaignProspect)
    (h : attach st cid pid status notes = .ok (st2, link)) :
    link.status = .NEW := by
  unfold attach at h
  split at h
  · cases h
  · simp only [Except.ok.injEq, Prod.mk.injEq] at h
    rcases h with ⟨-, hl⟩
    rw [← hl]

/-- C2 witness: attaching with the caller-supplied argument CONVERTED
still creates the link with status NEW. -/
theorem campaignTracker_attach_initial_NEW_witness :
    (CampaignProspect.mk 1 2 .NEW "").status = .NEW :=
  campaignTracker_attach_initial_NEW (TrackerState.mk []) 1 2 .CONVERTED ""
    (TrackerState.mk [CampaignProspect.mk 1 2 .NEW ""])
    (CampaignProspect.mk 1 2 .NEW "") rfl

/-- C6: after a successful attach of a pair, re-attaching the same pair
always fails with DuplicateAssociationError; the store the second call
observes still holds the links of the first call unchanged, and pair
uniqueness is preserved, so a pair appears at most once. -/
theorem campaignTracker_attach_duplicate (st : TrackerState) (cid pid : ℕ)
    (s1 s2 : ProspectStatus) (n1 n2 : String) (st2 : TrackerState)
    (link : CampaignProspect)
    (h : attach st cid pid s1 n1 = .ok (st2, link))
    (hnd : (st.links.map fun l => (l.campaignId, l.prospectId)).Nodup) :
    attach st2 cid pid s2 n2 = .error .duplicateAssociationError
    ∧ st2.links = st.links ++ [link]
    ∧ (st2.links.map fun l => (l.campaignId, l.prospectId)).Nodup := by
  unfold attach at h
  split at h
  · cases h
  · rename_i hex
    simp only [Except.ok.injEq, Prod.mk.injEq] at h
    rcases h with ⟨hst, hl⟩
    subst hst
    subst hl
    have hpair2 : pairExists
        (TrackerState.mk (st.links ++ [CampaignProspect.mk cid pid .NEW n1]))
        cid pid = true := by
      simp only [pairExists, List.any_eq_true]
      exact ⟨CampaignProspect.mk cid pid .NEW n1, by simp, by simp⟩
    refine ⟨by simp [attach, hpair2], rfl, ?_⟩
    have hnotin : (cid, pid) ∉ st.links.map fun l => (l.campaignId, l.prospectId) := by
      simp only [List.mem_map, not_exists]
      rintro l ⟨hlmem, he⟩
      have h1 : l.campaignId = cid := congrArg Prod.fst he
      have h2 : l.prospectId = pid := congrArg Prod.snd he
      have : pairExists st cid pid = true := by
        simp only [pairExists, List.any_eq_true]
        exact ⟨l, hlmem, by simp [h1, h2]⟩
      exact hex this
    rw [List.map_append]
    exact hnd.append (List.nodup_singleton _)
      ((List.disjoint_singleton).mpr hnotin)

/-- C6 witness: the duplicate-attach property instantiated on the empty
store and the pair (1, 2). -/
theorem campaignTracker_attach_duplicate_witness :
    attach (TrackerState.mk [CampaignProspect.mk 1 2 .NEW ""]) 1 2 .QUALIFIED "x"
        = .error .duplicateAssociationError
    ∧ (TrackerState.mk [CampaignProspect.mk 1 2 .NEW ""]).links
        = (TrackerState.mk []).links ++ [CampaignProspect.mk 1 2 .NEW ""]
    ∧ ((TrackerState.mk [CampaignProspect.mk 1 2 .NEW ""]).links.map fun l =>
        (l.campaignId, l.prospectId)).Nodup :=
  campaignTracker_attach_duplicate (TrackerState.mk []) 1 2 .NEW .QUALIFIED
    "" "x" (TrackerState.mk [CampaignProspect.mk 1 2 .NEW ""])
    (CampaignProspect.mk 1 2 .NEW "") rfl (by simp)

/-- C5: for an existing association, transition succeeds for each of
the targets CONTACTED, QUALIFIED, NOT_INTERESTED and CONVERTED, and
always fails with InvalidStatusError when the target is NEW or is not
one of the five defined status values. -/
theorem campaignTracker_transition_spec (st : TrackerState) (cid pid : ℕ)
    (ns : String) (hex : pairExists st cid pid = true) :
    ((ns = "CONTACTED" ∨ ns = "QUALIFIED" ∨ ns = "NOT_INTERESTED"
        ∨ ns = "CONVERTED") → (transition st cid pid ns).isOk = true)
    ∧ ((ns = "NEW" ∨ parseStatus ns = none) →
        transition st cid pid ns = .error .invalidStatusError) := by
  constructor
  · rintro (rfl | rfl | rfl | rfl) <;>
      simp [transition, parseStatus, hex, Except.isOk, Except.toBool]
  · rintro (rfl | hnone)
    · simp [transition, parseStatus]
    · simp [transition, hnone]

/-- C5 witness: on a store holding the pair (1, 2), the transition
property instantiated at target CONTACTED. -/
theorem campaignTracker_transition_spec_witness :
    (("CONTACTED" = "CONTACTED" ∨ "CONTACTED" = "QUALIFIED"
        ∨ "CONTACTED" = "NOT_INTERESTED" ∨ "CONTACTED" = "CONVERTED") →
      (transition (TrackerState.mk [CampaignProspect.mk 1 2 .NEW ""]) 1 2
        "CONTACTED").isOk = true)
    ∧ (("CONTACTED" = "NEW" ∨ parseStatus "CONTACTED" = none) →
      transition (TrackerState.mk [CampaignProspect.mk 1 2 .NEW ""]) 1 2
        "CONTACTED" = .error .invalidStatusError) :=
  campaignTracker_transition_spec
    (TrackerState.mk [CampaignProspect.mk 1 2 .NEW ""]) 1 2 "CONTACTED" rfl

/-- C9: ApiClient.searchProspects omits every filter parameter whose
value is falsy in the JavaScript sense: a business_type of the empty
string, a min_rating of 0, a max_price_level of 0 and an open_now of
false are never appended to the query string, which is therefore
identical to the one built with the filters object left out. -/
theorem searchProspects_omits_falsy (p : SearchParams) (f : SearchFilters)
    (hf : p.filters = some f)
    (h1 : f.business_type = none ∨ f.business_type = some "")
    (h2 : f.min_rating = none ∨ f.min_rating = some 0)
    (h3 : f.max_price_level = none ∨ f.max_price_level = some 0)
    (h4 : f.open_now = none ∨ f.open_now = some false) :
    searchQueryParams p = searchQueryParams { p with filters := none }
    ∧ "business_type" ∉ (searchQueryParams p).map Prod.fst
    ∧ "min_rating" ∉ (searchQueryParams p).map Prod.fst
    ∧ "max_price_level" ∉ (searchQueryParams p).map Prod.fst
    ∧ "open_now" ∉ (searchQueryParams p).map Prod.fst := by
  have ht1 : strTruthy f.business_type = false := by
    rcases h1 with h | h <;> simp [h, strTruthy]
  have ht2 : numTruthy f.min_rating = false := by
    rcases h2 with h | h <;> simp [h, numTruthy]
  have ht3 : numTruthy f.max_price_level = false := by
    rcases h3 with h | h <;> simp [h, numTruthy]
  have ht4 : boolTruthy f.open_now = false := by
    rcases h4 with h | h <;> simp [h, boolTruthy]
  have heq : searchQueryParams p = searchQueryParams { p with filters := none } := by
    simp [searchQueryParams, hf, ht1, ht2, ht3, ht4]
  refine ⟨heq, ?_, ?_, ?_, ?_⟩ <;>
  · rw [heq]
    simp only [searchQueryParams]
    split_ifs <;> simp

/-- C9 witness: a request carrying the four falsy filter values builds
the same query as one with no filters, and none of the four keys is
appended. -/
theorem searchProspects_omits_falsy_witness :
    searchQueryParams
        (SearchParams.mk (some 7) (some 5000) (some "addr")
          (some (SearchFilters.mk (some "") (some 0) (some 0) (some false))))
      = searchQueryParams
        { SearchParams.mk (some 7) (some 5000) (some "addr")
            (some (SearchFilters.mk (some "") (some 0) (some 0) (some false)))
          with filters := none }
    ∧ "business_type" ∉ (searchQueryParams
        (SearchParams.mk (some 7) (some 5000) (some "addr")
          (some (SearchFilters.mk (some "") (some 0) (some 0) (some false))))).map
        Prod.fst
    ∧ "min_rating" ∉ (searchQueryParams
        (SearchParams.mk (some 7) (some 5000) (some "addr")
          (some (SearchFilters.mk (some "") (some 0) (some 0) (some false))))).map
        Prod.fst
    ∧ "max_price_level" ∉ (searchQueryParams
        (SearchParams.mk (some 7) (some 5000) (some "addr")
          (some (SearchFilters.mk (some "") (some 0) (some 0) (some false))))).map
        Prod.fst
    ∧ "open_now" ∉ (searchQueryParams
        (SearchParams.mk (some 7) (some 5000) (some "addr")
          (some (SearchFilters.mk (some "") (some 0) (some 0) (some false))))).map
        Prod.fst :=
  searchProspects_omits_falsy
    (SearchParams.mk (some 7) (some 5000) (some "addr")
      (some (SearchFilters.mk (some "") (some 0) (some 0) (some false))))
    (SearchFilters.mk (some "") (some 0) (some 0) (some false))
    rfl (Or.inr rfl) (Or.inr rfl) (Or.inr rfl) (Or.inr rfl)

/-- A nonzero rating reduces to star counts: floor(r) full stars, the
half star decided by the JavaScript remainder, and the truncated
remainder of empty stars. -/
theorem generateStarRating_pos (r : ℚ) (h : r ≠ 0) :
    generateStarRating (some r)
      = .stars (⌊r⌋).toNat (if (1 : ℚ)/2 ≤ jsRem r then 1 else 0)
          ((5 - ⌊r⌋ - (if (1 : ℚ)/2 ≤ jsRem r then 1 else 0)).toNat) := by
  simp only [generateStarRating, beq_iff_eq, h, if_false]
  by_cases hh : (1 : ℚ)/2 ≤ jsRem r <;> simp [hh]

/-- C10: for every rating r with 0 < r and r ≤ 5, generateStarRating
returns exactly five star icons: floor(r) full stars, one half star
exactly when the fractional part of r is at least one half, and empty
stars for the remainder; a falsy rating (absent or 0) gives the No
rating marker with no star icons. -/
theorem generateStarRating_spec (r : ℚ) (h0 : 0 < r) (h5 : r ≤ 5) :
    generateStarRating none = .noRating
    ∧ generateStarRating (some 0) = .noRating
    ∧ generateStarRating (some r)
        = .stars (⌊r⌋).toNat (if (1 : ℚ)/2 ≤ Int.fract r then 1 else 0)
            (5 - (⌊r⌋).toNat - (if (1 : ℚ)/2 ≤ Int.fract r then 1 else 0))
    ∧ (⌊r⌋).toNat + (if (1 : ℚ)/2 ≤ Int.fract r then 1 else 0)
        + (5 - (⌊r⌋).toNat - (if (1 : ℚ)/2 ≤ Int.fract r then 1 else 0)) = 5 := by
  have hF0 : (0:ℤ) ≤ ⌊r⌋ := Int.floor_nonneg.mpr h0.le
  have hF5 : ⌊r⌋ ≤ (5:ℤ) := by
    have hq : (⌊r⌋ : ℚ) ≤ 5 := le_trans (Int.floor_le r) h5
    exact_mod_cast hq
  have hrem : jsRem r = Int.fract r := by
    rw [jsRem, if_pos h0.le, Int.self_sub_floor]
  have hred := generateStarRating_pos r h0.ne'
  rw [hrem] at hred
  by_cases hh : (1 : ℚ)/2 ≤ Int.fract r
  · have hF4 : ⌊r⌋ ≤ (4:ℤ) := by
      have hsum : (⌊r⌋ : ℚ) + Int.fract r = r := Int.floor_add_fract r
      have h9 : (⌊r⌋ : ℚ) ≤ 9/2 := by linarith
      have hlt : ⌊r⌋ < (5:ℤ) := by
        have : (⌊r⌋ : ℚ) < 5 := lt_of_le_of_lt h9 (by norm_num)
        exact_mod_cast this
      omega
    refine ⟨rfl, by simp [generateStarRating], ?_, ?_⟩
    · rw [hred]
      simp only [hh, if_true]
      congr 1
      omega
    · simp only [hh, if_true]
      omega
  · refine ⟨rfl, by simp [generateStarRating], ?_, ?_⟩
    · rw [hred]
      simp only [hh, if_false]
      congr 1
      omega
    · simp only [hh, if_false]
      omega

/-- C10 witness: the star counts instantiated at the rating 4.6, which
renders four full stars, one half star and no empty star. -/
theorem generateStarRating_spec_witness :
    generateStarRating none = .noRating
    ∧ generateStarRating (some 0) = .noRating
    ∧ generateStarRating (some ((23:ℚ)/5))
        = .stars (⌊(23:ℚ)/5⌋).toNat
            (if (1 : ℚ)/2 ≤ Int.fract ((23:ℚ)/5) then 1 else 0)
            (5 - (⌊(23:ℚ)/5⌋).toNat
              - (if (1 : ℚ)/2 ≤ Int.fract ((23:ℚ)/5) then 1 else 0))
    ∧ (⌊(23:ℚ)/5⌋).toNat + (if (1 : ℚ)/2 ≤ Int.fract ((23:ℚ)/5) then 1 else 0)
        + (5 - (⌊(23:ℚ)/5⌋).toNat
          - (if (1 : ℚ)/2 ≤ Int.fract ((23:ℚ)/5) then 1 else 0)) = 5 :=
  generateStarRating_spec ((23:ℚ)/5) (by norm_num) (by norm_num)

end LookLike
